import Mathlib

/-!
Shallow embedding of the scroll directive (`ScrollDirective`) of the
range-synchronized virtual list renderer, together with the two external
collaborators it touches at its boundary: the keyed-list reconciliation
primitive (`repeat` from lit) and the Geometry Engine (`VirtualScroller`),
both modelled at their documented interface.

State is passed explicitly: each method of the class becomes a function
from the instance state (and its arguments) to the new instance state,
the returned value, and a record of the observable side effects of the
call (engine constructions, listener registrations, scheduled retries,
writes to the engine scrollToIndex field).
-/

namespace LitScroll

/-- JavaScript values of underlying type `α` that may also be `undefined`;
`none` stands for `undefined`. -/
abbrev JSVal (α : Type) := Option α

/-- JavaScript array indexing: an out-of-bounds read yields `undefined`. -/
def jsGet {α : Type} (l : List (JSVal α)) (i : Nat) : JSVal α :=
  match l[i]? with
  | some v => v
  | none => none

/-- Node in the DOM, reduced to the data the directive inspects: its
`nodeType` (`1` for an element). Also used for scroll targets. -/
structure Elem where
  nodeType : Int
deriving DecidableEq

/-- Part type tag of child expressions, from the lit directive API
(`PartType.CHILD` is `2`). -/
def PartType.CHILD : Nat := 2

/-- Construction-time information about the binding site. -/
structure PartInfo where
  type : Nat
deriving DecidableEq

/-- Child part: the live attachment point; its parent node may not be
available yet. -/
structure ChildPart where
  parentNode : Option Elem
deriving DecidableEq

/-- Modelled from the spec: layout values (a `Layout`, a constructor or a
specifier) are opaque to the core and passed through unchanged; modelled
as a token. -/
structure Layout where
  tag : Nat
deriving DecidableEq

/-- Modelled from the spec: `ScrollToIndexValue` (index and position of the
item to scroll to) is opaque to the core; only its presence matters. -/
structure ScrollToIndexValue where
  index : Int
deriving DecidableEq

/-- Modelled from the spec: the default render output is a structural
serialization of the item (`html` and `JSON.stringify` are external);
modelled as a tagged wrapper of the serialized item. -/
structure TemplateResult (α : Type) where
  jsonOfItem : JSVal α
deriving DecidableEq

/-- Default key function: the identity of the item value. -/
def defaultKeyFunction {α : Type} : JSVal α → JSVal α := fun item => item

/-- Default render function: a structural dump of the item; the extra index
argument is ignored, as it is in JavaScript. -/
def defaultRenderItem {α : Type} : JSVal α → Nat → TemplateResult α :=
  fun item _ => { jsonOfItem := item }

/-- Modelled from the spec: the Geometry Engine (`VirtualScroller`, outside
the core source) is consumed through a constructor taking a container and
the mutable fields `items`, `totalItems`, `layout`, `scrollTarget` and
`scrollToIndex`; it is modelled as a passive store of those fields. -/
structure VirtualScroller (α : Type) where
  container : Elem
  items : List (JSVal α)
  totalItems : Int
  layout : Option Layout
  scrollTarget : Option Elem
  scrollToIndex : Option ScrollToIndexValue

/-- Modelled from the spec: construction of the Geometry Engine for a given
container; the configuration fields start empty. -/
def VirtualScroller.new {α : Type} (container : Elem) : VirtualScroller α :=
  { container := container, items := [], totalItems := 0, layout := none,
    scrollTarget := none, scrollToIndex := none }

/-- Modelled from the spec: the keyed-list reconciliation primitive
(`repeat` from lit). It receives a list, a key function and a template and
produces the ordered keyed sequence of the list, calling the key function
and the template with each element together with its index within the
supplied list. -/
def repeatDirective {α κ ρ : Type} (items : List (JSVal α))
    (keyFn : JSVal α → Nat → κ) (template : JSVal α → Nat → ρ) :
    List (κ × ρ) :=
  (List.range items.length).map
    (fun j => (keyFn (jsGet items j) j, template (jsGet items j) j))

/-- Instance state of the scroll directive (the fields of the class). -/
structure ScrollDirective (α κ ρ : Type) where
  container : Option Elem
  scroller : Option (VirtualScroller α)
  first : Int
  last : Int
  renderItem : JSVal α → Nat → ρ
  keyFunction : JSVal α → κ
  items : List (JSVal α)

/-- Configuration options of the scroll directive; every field is optional
(`none` stands for absent, or for `null`/`undefined` where the source
treats them alike through truthiness). -/
structure ScrollConfig (α κ ρ : Type) where
  renderItem : Option (JSVal α → Nat → ρ) := none
  keyFunction : Option (JSVal α → κ) := none
  layout : Option Layout := none
  scrollTarget : Option Elem := none
  items : Option (List (JSVal α)) := none
  totalItems : Option Int := none
  scrollToIndex : Option ScrollToIndexValue := none

/-- JavaScript `x || d` on an optional number: an absent value and `0` are
falsy and fall through to the default. -/
def jsNumOr (x : Option Int) (d : Int) : Int :=
  match x with
  | some n => if n = 0 then d else n
  | none => d

/-- Value returned by `update`: either the `nothing` sentinel of lit or the
keyed sequence produced by the reconciliation primitive. -/
inductive RenderOutput (κ ρ : Type) where
  | nothing
  | keyed (entries : List (κ × ρ))
deriving DecidableEq

/-- Observable side effects of one `update` call: how many Geometry Engine
instances were constructed, how many rangeChanged listeners were
registered, which deferred retries were scheduled (one per
`Promise.resolve().then`), and which values were written to the engine
scrollToIndex field. -/
structure UpdateEffects (α κ ρ : Type) where
  engineConstructions : Nat
  listenerRegistrations : Nat
  scheduledRetries : List (ChildPart × ScrollConfig α κ ρ)
  scrollToIndexWrites : List ScrollToIndexValue

/-- The render method: refresh `renderItem` and `keyFunction` from the
configuration when one is supplied, then project the stored range through
the reconciliation primitive. Returns the new instance state and the keyed
sequence. The key function is handed to the primitive as written in the
source; the extra index argument the primitive supplies is dropped, as it
is in JavaScript. -/
def ScrollDirective.render {α κ ρ : Type} (st : ScrollDirective α κ ρ)
    (config : Option (ScrollConfig α κ ρ)) :
    ScrollDirective α κ ρ × List (κ × ρ) :=
  let st1 :=
    match config with
    | some c =>
        { st with renderItem := c.renderItem.getD st.renderItem,
                  keyFunction := c.keyFunction.getD st.keyFunction }
    | none => st
  let itemsToRender : List (JSVal α) :=
    if 0 ≤ st1.first ∧ st1.first ≤ st1.last then
      (List.range (st1.last + 1 - st1.first).toNat).map
        (fun k => jsGet st1.items (st1.first.toNat + k))
    else []
  (st1, repeatDirective itemsToRender (fun item _ => st1.keyFunction item)
    st1.renderItem)

/-- Application of one configuration to an instance whose engine state is
`s`: the body of `update` after a successful binding check. Returns the new
instance state and the writes performed on the engine scrollToIndex field
(`scrollToIndex` is assigned only when present in the configuration). -/
def ScrollDirective.applyConfig {α κ ρ : Type} (st : ScrollDirective α κ ρ)
    (s : VirtualScroller α) (config : ScrollConfig α κ ρ) :
    ScrollDirective α κ ρ × List ScrollToIndexValue :=
  let newItems := config.items.getD []
  let stiWrites :=
    match config.scrollToIndex with
    | some v => [v]
    | none => []
  let s1 :=
    { s with
      items := newItems,
      totalItems :=
        jsNumOr config.totalItems
          (jsNumOr (config.items.map (fun l => (l.length : Int))) 0),
      layout := config.layout,
      scrollTarget := config.scrollTarget <|> st.container,
      scrollToIndex :=
        match config.scrollToIndex with
        | some v => some v
        | none => s.scrollToIndex }
  ({ st with items := newItems, scroller := some s1 }, stiWrites)

/-- The private initialization step of the directive: record the parent
node of the part as the container; when it is an element, construct the
Geometry Engine and register the rangeChanged listener; otherwise schedule
one deferred retry of the same update with the same configuration. -/
def ScrollDirective.initScroller {α κ ρ : Type} (st : ScrollDirective α κ ρ)
    (part : ChildPart) (config : ScrollConfig α κ ρ) :
    ScrollDirective α κ ρ × Bool × UpdateEffects α κ ρ :=
  let st1 := { st with container := part.parentNode }
  match part.parentNode with
  | some el =>
      if el.nodeType = 1 then
        ({ st1 with scroller := some (VirtualScroller.new el) }, true,
         { engineConstructions := 1, listenerRegistrations := 1,
           scheduledRetries := [], scrollToIndexWrites := [] })
      else
        (st1, false,
         { engineConstructions := 0, listenerRegistrations := 0,
           scheduledRetries := [(part, config)], scrollToIndexWrites := [] })
  | none =>
      (st1, false,
       { engineConstructions := 0, listenerRegistrations := 0,
         scheduledRetries := [(part, config)], scrollToIndexWrites := [] })

/-- The update method: when already bound, or when the binding step
succeeds, push the configuration into the Geometry Engine and return the
rendered projection; when the binding step fails, return the `nothing`
sentinel, with the scheduled retry recorded in the effects. -/
def ScrollDirective.update {α κ ρ : Type} (st : ScrollDirective α κ ρ)
    (part : ChildPart) (config : ScrollConfig α κ ρ) :
    ScrollDirective α κ ρ × RenderOutput κ ρ × UpdateEffects α κ ρ :=
  match st.scroller with
  | some s =>
      let r1 := ScrollDirective.applyConfig st s config
      let r2 := ScrollDirective.render r1.1 (some config)
      (r2.1, RenderOutput.keyed r2.2,
       { engineConstructions := 0, listenerRegistrations := 0,
         scheduledRetries := [], scrollToIndexWrites := r1.2 })
  | none =>
      let r := ScrollDirective.initScroller st part config
      if r.2.1 then
        match r.1.scroller with
        | some s =>
            let r1 := ScrollDirective.applyConfig r.1 s config
            let r2 := ScrollDirective.render r1.1 (some config)
            (r2.1, RenderOutput.keyed r2.2,
             { r.2.2 with scrollToIndexWrites := r1.2 })
        | none => (r.1, RenderOutput.nothing, r.2.2)
      else
        (r.1, RenderOutput.nothing, r.2.2)

/-- The rangeChanged listener: store the notified range, re-render with the
current state and push the result through `setValue`. Returns the new
instance state and the pushed keyed sequence. -/
def ScrollDirective.handleRangeChanged {α κ ρ : Type}
    (st : ScrollDirective α κ ρ) (first last : Int) :
    ScrollDirective α κ ρ × List (κ × ρ) :=
  ScrollDirective.render { st with first := first, last := last } none

/-- Error message thrown when the directive is constructed outside a child
expression. -/
def childOnlyMessage : String :=
  "The scroll directive can only be used in child expressions"

/-- Initial field values of a freshly constructed directive instance. -/
def ScrollDirective.initialState (α : Type) :
    ScrollDirective α (JSVal α) (TemplateResult α) :=
  { container := none, scroller := none, first := 0, last := -1,
    renderItem := defaultRenderItem, keyFunction := defaultKeyFunction,
    items := [] }

/-- The constructor: throws unless the part is a child expression;
otherwise produces the initial instance state. -/
def ScrollDirective.construct (α : Type) (part : PartInfo) :
    Except String (ScrollDirective α (JSVal α) (TemplateResult α)) :=
  if part.type = PartType.CHILD then
    Except.ok (ScrollDirective.initialState α)
  else
    Except.error childOnlyMessage

/-- Whether the parent of the attachment point is a valid element container
(the check performed by the initialization step). -/
def bindableParent (part : ChildPart) : Bool :=
  match part.parentNode with
  | some el => decide (el.nodeType = 1)
  | none => false

/-- One step of a sequence of update calls, accumulating the number of
engine constructions and listener registrations. -/
def updateStep {α κ ρ : Type} (acc : ScrollDirective α κ ρ × Nat × Nat)
    (call : ChildPart × ScrollConfig α κ ρ) :
    ScrollDirective α κ ρ × Nat × Nat :=
  let r := ScrollDirective.update acc.1 call.1 call.2
  (r.1, acc.2.1 + r.2.2.engineConstructions,
   acc.2.2 + r.2.2.listenerRegistrations)

/-- Fold a whole sequence of update calls over an instance, counting the
engine constructions and the listener registrations they perform. -/
def runUpdates {α κ ρ : Type} (st : ScrollDirective α κ ρ)
    (calls : List (ChildPart × ScrollConfig α κ ρ)) :
    ScrollDirective α κ ρ × Nat × Nat :=
  calls.foldl updateStep (st, 0, 0)

/-! Helper lemmas about the projection step. -/

lemma jsGet_of_getElem? {α : Type} {l : List (JSVal α)} {i : Nat}
    {v : JSVal α} (h : l[i]? = some v) : jsGet l i = v := by
  simp [jsGet, h]

lemma jsGet_oob {α : Type} {l : List (JSVal α)} {i : Nat}
    (h : l.length ≤ i) : jsGet l i = none := by
  simp [jsGet, List.getElem?_eq_none h]

lemma repeatDirective_length {α κ ρ : Type} (l : List (JSVal α))
    (keyFn : JSVal α → Nat → κ) (template : JSVal α → Nat → ρ) :
    (repeatDirective l keyFn template).length = l.length := by
  simp [repeatDirective]

lemma repeatDirective_getElem? {α κ ρ : Type} (l : List (JSVal α))
    (keyFn : JSVal α → Nat → κ) (template : JSVal α → Nat → ρ)
    (j : Nat) (v : JSVal α) (h : l[j]? = some v) :
    (repeatDirective l keyFn template)[j]? =
      some (keyFn v j, template v j) := by
  have hj : j < l.length := by
    rcases Nat.lt_or_ge j l.length with h1 | h1
    · exact h1
    · rw [List.getElem?_eq_none h1] at h
      cases h
  rw [repeatDirective, List.getElem?_map]
  simp [List.getElem?_range, hj, jsGet_of_getElem? h]

lemma render_none_fst {α κ ρ : Type} (st : ScrollDirective α κ ρ) :
    (st.render none).1 = st := by
  simp [ScrollDirective.render]

lemma render_some_fst {α κ ρ : Type} (st : ScrollDirective α κ ρ)
    (c : ScrollConfig α κ ρ) :
    (st.render (some c)).1 =
      { st with renderItem := c.renderItem.getD st.renderItem,
                keyFunction := c.keyFunction.getD st.keyFunction } := by
  simp [ScrollDirective.render]

lemma render_none_snd_pos {α κ ρ : Type} (st : ScrollDirective α κ ρ)
    (hf : 0 ≤ st.first) (hfl : st.first ≤ st.last) :
    (st.render none).2 =
      repeatDirective
        ((List.range (st.last + 1 - st.first).toNat).map
          (fun k => jsGet st.items (st.first.toNat + k)))
        (fun item _ => st.keyFunction item) st.renderItem := by
  simp [ScrollDirective.render, hf, hfl]

lemma render_none_empty {α κ ρ : Type} (st : ScrollDirective α κ ρ)
    (h : ¬ (0 ≤ st.first ∧ st.first ≤ st.last)) :
    (st.render none).2 = [] := by
  simp [ScrollDirective.render, h, repeatDirective]

lemma render_none_length_pos {α κ ρ : Type} (st : ScrollDirective α κ ρ)
    (hf : 0 ≤ st.first) (hfl : st.first ≤ st.last) :
    (st.render none).2.length = (st.last + 1 - st.first).toNat := by
  rw [render_none_snd_pos st hf hfl, repeatDirective_length]
  simp

lemma render_none_getElem? {α κ ρ : Type} (st : ScrollDirective α κ ρ)
    (j : Nat) (hf : 0 ≤ st.first) (hfl : st.first ≤ st.last)
    (hj : j < (st.last + 1 - st.first).toNat) :
    (st.render none).2[j]? =
      some (st.keyFunction (jsGet st.items (st.first.toNat + j)),
            st.renderItem (jsGet st.items (st.first.toNat + j)) j) := by
  rw [render_none_snd_pos st hf hfl]
  exact repeatDirective_getElem? _ _ _ j _
    (by rw [List.getElem?_map]; simp [List.getElem?_range, hj])

/-! Helper lemmas about the binding check and the update paths. -/

lemma bindableParent_iff {part : ChildPart} :
    bindableParent part = true ↔
      ∃ el, part.parentNode = some el ∧ el.nodeType = 1 := by
  cases h : part.parentNode <;> simp [bindableParent, h]

lemma update_unbindable_spec {α κ ρ : Type} (st : ScrollDirective α κ ρ)
    (part : ChildPart) (config : ScrollConfig α κ ρ)
    (hunbound : st.scroller = none) (hbad : bindableParent part = false) :
    (st.update part config).2.1 = RenderOutput.nothing ∧
    (st.update part config).2.2.scheduledRetries = [(part, config)] ∧
    (st.update part config).2.2.engineConstructions = 0 ∧
    (st.update part config).2.2.listenerRegistrations = 0 ∧
    (st.update part config).1.scroller = none := by
  cases hpn : part.parentNode with
  | none =>
      simp [ScrollDirective.update, ScrollDirective.initScroller, hunbound,
        hpn]
  | some el =>
      have ht : ¬ el.nodeType = 1 := by
        simpa [bindableParent, hpn] using hbad
      simp [ScrollDirective.update, ScrollDirective.initScroller, hunbound,
        hpn, ht]

lemma update_effects_bound {α κ ρ : Type} (st : ScrollDirective α κ ρ)
    (part : ChildPart) (config : ScrollConfig α κ ρ)
    (hs : st.scroller.isSome = true) :
    (st.update part config).2.2.engineConstructions = 0 ∧
    (st.update part config).2.2.listenerRegistrations = 0 ∧
    (st.update part config).1.scroller.isSome = true := by
  obtain ⟨s, hs⟩ := Option.isSome_iff_exists.mp hs
  simp [ScrollDirective.update, hs, ScrollDirective.applyConfig,
    ScrollDirective.render]

lemma update_effects_unbound_bindable {α κ ρ : Type}
    (st : ScrollDirective α κ ρ) (part : ChildPart)
    (config : ScrollConfig α κ ρ)
    (hs : st.scroller = none) (hb : bindableParent part = true) :
    (st.update part config).2.2.engineConstructions = 1 ∧
    (st.update part config).2.2.listenerRegistrations = 1 ∧
    (st.update part config).1.scroller.isSome = true := by
  obtain ⟨el, hpn, ht⟩ := bindableParent_iff.mp hb
  simp [ScrollDirective.update, ScrollDirective.initScroller, hs, hpn, ht,
    ScrollDirective.applyConfig, ScrollDirective.render, VirtualScroller.new]

/-- C8: constructing the directive in a part whose type is not a child
expression fails immediately with the misuse error, before any update or
render is attempted; construction in a child-content context succeeds and
does not throw. -/
theorem construct_child_part_check (α : Type) (p : PartInfo) :
    ((∃ st0, ScrollDirective.construct α p = Except.ok st0) ↔
      p.type = PartType.CHILD) ∧
    (p.type ≠ PartType.CHILD →
      ScrollDirective.construct α p = Except.error childOnlyMessage) := by
  by_cases h : p.type = PartType.CHILD <;>
    simp [ScrollDirective.construct, h]

/-- Witness for C8: a part of type 5 (an attribute-like part) is rejected
with the misuse error. -/
theorem construct_child_part_check_witness :
    ScrollDirective.construct Nat { type := 5 } =
      Except.error childOnlyMessage :=
  (construct_child_part_check Nat { type := 5 }).2 (by decide)

/-- C9: a freshly constructed instance stores the range (first = 0,
last = -1); therefore an update call that binds successfully before the
first range notification produces the empty keyed sequence, whatever items
the configuration carries. -/
theorem fresh_instance_first_render_empty (α : Type) (p0 : PartInfo)
    (part : ChildPart)
    (config : ScrollConfig α (JSVal α) (TemplateResult α))
    (st0 : ScrollDirective α (JSVal α) (TemplateResult α))
    (hc : ScrollDirective.construct α p0 = Except.ok st0)
    (hb : bindableParent part = true) :
    st0.first = 0 ∧ st0.last = -1 ∧
    (st0.update part config).2.1 = RenderOutput.keyed [] := by
  have hst : st0 = ScrollDirective.initialState α := by
    by_cases h : p0.type = PartType.CHILD
    · have := hc
      simp [ScrollDirective.construct, h] at this
      exact this.symm
    · simp [ScrollDirective.construct, h] at hc
  subst hst
  obtain ⟨el, hpn, ht⟩ := bindableParent_iff.mp hb
  refine ⟨rfl, rfl, ?_⟩
  simp [ScrollDirective.update, ScrollDirective.initialState,
    ScrollDirective.initScroller, hpn, ht, ScrollDirective.applyConfig,
    ScrollDirective.render, repeatDirective]

/-- Witness for C9: constructing on a child part, then updating with a
non-empty items list below a real element, yields the empty keyed
sequence. -/
theorem fresh_instance_first_render_empty_witness :
    (ScrollDirective.initialState Nat).first = 0 ∧
    (ScrollDirective.initialState Nat).last = -1 ∧
    ((ScrollDirective.initialState Nat).update
        { parentNode := some { nodeType := 1 } }
        { items := some [some 7, some 8] }).2.1 =
      RenderOutput.keyed [] :=
  fresh_instance_first_render_empty Nat { type := 2 }
    { parentNode := some { nodeType := 1 } }
    { items := some [some 7, some 8] }
    (ScrollDirective.initialState Nat) rfl (by decide)

/-- C3: an update call on an unbound instance whose attachment point
parent is not a valid element returns the no-op output `nothing`,
schedules exactly one deferred retry carrying the same part and the same
configuration, constructs no engine and registers no listener, and leaves
the instance unbound, so the retried update re-evaluates bindability from
scratch through the initialization step. -/
theorem unbindable_update_defers_single_retry {α κ ρ : Type}
    (st : ScrollDirective α κ ρ) (part : ChildPart)
    (config : ScrollConfig α κ ρ) (hunbound : st.scroller = none)
    (hbad : bindableParent part = false) :
    (st.update part config).2.1 = RenderOutput.nothing ∧
    (st.update part config).2.2.scheduledRetries = [(part, config)] ∧
    (st.update part config).2.2.engineConstructions = 0 ∧
    (st.update part config).2.2.listenerRegistrations = 0 ∧
    (st.update part config).1.scroller = none :=
  update_unbindable_spec st part config hunbound hbad

/-- Witness for C3: updating a fresh instance below a part with no parent
is a no-op that schedules one retry. -/
theorem unbindable_update_defers_single_retry_witness :
    ((ScrollDirective.initialState Nat).update { parentNode := none }
        { items := some [some 7] }).2.1 = RenderOutput.nothing ∧
    ((ScrollDirective.initialState Nat).update { parentNode := none }
        { items := some [some 7] }).2.2.scheduledRetries =
      [({ parentNode := none }, { items := some [some 7] })] ∧
    ((ScrollDirective.initialState Nat).update { parentNode := none }
        { items := some [some 7] }).2.2.engineConstructions = 0 ∧
    ((ScrollDirective.initialState Nat).update { parentNode := none }
        { items := some [some 7] }).2.2.listenerRegistrations = 0 ∧
    ((ScrollDirective.initialState Nat).update { parentNode := none }
        { items := some [some 7] }).1.scroller = none :=
  unbindable_update_defers_single_retry (ScrollDirective.initialState Nat)
    { parentNode := none } { items := some [some 7] } rfl (by decide)

/-! Helper lemmas counting engine constructions across a run. -/

lemma updateStep_inv {α κ ρ : Type} (acc : ScrollDirective α κ ρ × Nat × Nat)
    (call : ChildPart × ScrollConfig α κ ρ)
    (h1 : acc.2.2 = acc.2.1)
    (h2 : acc.2.1 = (if acc.1.scroller.isSome then 1 else 0)) :
    (updateStep acc call).2.2 = (updateStep acc call).2.1 ∧
    (updateStep acc call).2.1 =
      (if (updateStep acc call).1.scroller.isSome then 1 else 0) := by
  cases hs : acc.1.scroller with
  | some s =>
      have hb := update_effects_bound acc.1 call.1 call.2 (by simp [hs])
      rw [hs] at h2
      simp only [Option.isSome_some, if_true] at h2
      constructor
      · simp [updateStep, hb.1, hb.2.1, h1]
      · simp [updateStep, hb.1, hb.2.2, h2]
  | none =>
      rw [hs] at h2
      simp only [Option.isSome_none, if_false] at h2
      cases hb : bindableParent call.1 with
      | true =>
          have h := update_effects_unbound_bindable acc.1 call.1 call.2 hs hb
          constructor
          · simp [updateStep, h.1, h.2.1, h1]
          · simp [updateStep, h.1, h.2.2, h2]
      | false =>
          have h := update_unbindable_spec acc.1 call.1 call.2 hs hb
          constructor
          · simp [updateStep, h.2.2.1, h.2.2.2.1, h1]
          · simp [updateStep, h.2.2.1, h.2.2.2.2, h2]

lemma runUpdates_inv {α κ ρ : Type}
    (calls : List (ChildPart × ScrollConfig α κ ρ)) :
    ∀ acc : ScrollDirective α κ ρ × Nat × Nat,
      acc.2.2 = acc.2.1 →
      acc.2.1 = (if acc.1.scroller.isSome then 1 else 0) →
      ((calls.foldl updateStep acc).2.2 =
          (calls.foldl updateStep acc).2.1 ∧
       (calls.foldl updateStep acc).2.1 =
         (if (calls.foldl updateStep acc).1.scroller.isSome then 1
          else 0)) := by
  induction calls with
  | nil => intro acc h1 h2; exact ⟨h1, h2⟩
  | cons c cs ih =>
      intro acc h1 h2
      rw [List.foldl_cons]
      exact ih _ (updateStep_inv acc c h1 h2).1 (updateStep_inv acc c h1 h2).2

/-- C4: over any sequence of update calls on an initially unbound
instance, at most one Geometry Engine is constructed and at most one
rangeChanged listener is registered; moreover any update call on a bound
instance constructs no engine, registers no listener, and leaves the
instance bound to an engine (it reuses the existing one). -/
theorem engine_constructed_at_most_once {α κ ρ : Type}
    (st stB : ScrollDirective α κ ρ)
    (calls : List (ChildPart × ScrollConfig α κ ρ))
    (part : ChildPart) (config : ScrollConfig α κ ρ)
    (hfresh : st.scroller = none) (hbound : stB.scroller.isSome = true) :
    (runUpdates st calls).2.1 ≤ 1 ∧ (runUpdates st calls).2.2 ≤ 1 ∧
    (stB.update part config).2.2.engineConstructions = 0 ∧
    (stB.update part config).2.2.listenerRegistrations = 0 ∧
    (stB.update part config).1.scroller.isSome = true := by
  have hinv := runUpdates_inv calls (st, 0, 0) rfl (by simp [hfresh])
  have hb := update_effects_bound stB part config hbound
  refine ⟨?_, ?_, hb.1, hb.2.1, hb.2.2⟩
  · rw [runUpdates, hinv.2]
    split <;> omega
  · rw [runUpdates, hinv.1, hinv.2]
    split <;> omega

/-- Witness for C4: a run of three update calls (a failing one, a binding
one and a re-entering one) constructs the engine once and registers one
listener; an update on the bound state does neither. -/
theorem engine_constructed_at_most_once_witness :
    (runUpdates (ScrollDirective.initialState Nat)
        [({ parentNode := none }, { items := some [some 1] }),
         ({ parentNode := some { nodeType := 1 } },
          { items := some [some 1] }),
         ({ parentNode := some { nodeType := 1 } },
          { items := some [some 1, some 2] })]).2.1 ≤ 1 ∧
    (runUpdates (ScrollDirective.initialState Nat)
        [({ parentNode := none }, { items := some [some 1] }),
         ({ parentNode := some { nodeType := 1 } },
          { items := some [some 1] }),
         ({ parentNode := some { nodeType := 1 } },
          { items := some [some 1, some 2] })]).2.2 ≤ 1 ∧
    (((ScrollDirective.initialState Nat).update
        { parentNode := some { nodeType := 1 } }
        { items := some [some 1] }).1.update
        { parentNode := some { nodeType := 1 } }
        { items := some [some 1, some 2] }).2.2.engineConstructions = 0 ∧
    (((ScrollDirective.initialState Nat).update
        { parentNode := some { nodeType := 1 } }
        { items := some [some 1] }).1.update
        { parentNode := some { nodeType := 1 } }
        { items := some [some 1, some 2] }).2.2.listenerRegistrations = 0 ∧
    (((ScrollDirective.initialState Nat).update
        { parentNode := some { nodeType := 1 } }
        { items := some [some 1] }).1.update
        { parentNode := some { nodeType := 1 } }
        { items := some [some 1, some 2] }).1.scroller.isSome = true :=
  engine_constructed_at_most_once (ScrollDirective.initialState Nat)
    (((ScrollDirective.initialState Nat).update
        { parentNode := some { nodeType := 1 } }
        { items := some [some 1] }).1)
    [({ parentNode := none }, { items := some [some 1] }),
     ({ parentNode := some { nodeType := 1 } }, { items := some [some 1] }),
     ({ parentNode := some { nodeType := 1 } },
      { items := some [some 1, some 2] })]
    { parentNode := some { nodeType := 1 } }
    { items := some [some 1, some 2] } rfl (by decide)

/-! Helper lemma describing the engine fields after a bound update. -/

lemma update_bound_scroller_fields {α κ ρ : Type}
    (st : ScrollDirective α κ ρ) (s : VirtualScroller α) (part : ChildPart)
    (config : ScrollConfig α κ ρ) (hs : st.scroller = some s) :
    (st.update part config).1.scroller =
      some { s with
        items := config.items.getD [],
        totalItems := jsNumOr config.totalItems
          (jsNumOr (config.items.map (fun l => (l.length : Int))) 0),
        layout := config.layout,
        scrollTarget := config.scrollTarget <|> st.container,
        scrollToIndex :=
          match config.scrollToIndex with
          | some v => some v
          | none => s.scrollToIndex } ∧
    (st.update part config).2.2.scrollToIndexWrites =
      (match config.scrollToIndex with
       | some v => [v]
       | none => []) := by
  constructor <;>
    simp [ScrollDirective.update, hs, ScrollDirective.applyConfig,
      ScrollDirective.render]

/-- C5 counterexample: on a bound instance, a configuration with an
explicit `totalItems` of `0` together with a one-element items list pushes
`1` (the items length) into the engine, not the explicit `0` the claim
states: `0` is falsy and falls through the `||` chain. -/
theorem totalItems_explicit_zero_cex :
    (((ScrollDirective.initialState Nat).update
        { parentNode := some { nodeType := 1 } }
        { items := some [some 5], totalItems := some 0 }).1.scroller.map
      (fun s => s.totalItems)) = some 1 ∧
    (((ScrollDirective.initialState Nat).update
        { parentNode := some { nodeType := 1 } }
        { items := some [some 5], totalItems := some 0 }).1.scroller.map
      (fun s => s.totalItems)) ≠ some 0 := by
  constructor <;> decide

/-- C5 (amended): on every bound update call, the value pushed to the
engine `totalItems` field is the explicit `totalItems` when it is provided
and nonzero; when `totalItems` is absent or `0` it is the length of the
provided items; and `0` when items are absent as well. An explicitly
provided `totalItems` of `0` is thus not pushed as `0` when a non-empty
items list is provided: being falsy, it falls through to the items
length. -/
theorem totalItems_push_rule {α κ ρ : Type} (st : ScrollDirective α κ ρ)
    (s : VirtualScroller α) (part : ChildPart)
    (config : ScrollConfig α κ ρ) (hs : st.scroller = some s) :
    ∃ s', (st.update part config).1.scroller = some s' ∧
      (∀ n : Int, config.totalItems = some n → n ≠ 0 →
        s'.totalItems = n) ∧
      (∀ l : List (JSVal α),
        (config.totalItems = none ∨ config.totalItems = some 0) →
        config.items = some l → s'.totalItems = (l.length : Int)) ∧
      ((config.totalItems = none ∨ config.totalItems = some 0) →
        config.items = none → s'.totalItems = 0) := by
  refine ⟨_, (update_bound_scroller_fields st s part config hs).1, ?_, ?_, ?_⟩
  · intro n hn hne
    simp [hn, jsNumOr, hne]
  · rintro l (h | h) hl <;>
      · rcases eq_or_ne (l.length : Int) 0 with hz | hz <;>
          simp [h, hl, jsNumOr, hz]
  · rintro (h | h) hi <;> simp [h, hi, jsNumOr]

/-- Concrete attachment point below a real element, used by witnesses. -/
def wPart : ChildPart := { parentNode := some { nodeType := 1 } }

/-- Concrete first configuration used by witnesses: one item and a request
to scroll to index 4. -/
def wCfg1 : ScrollConfig Nat (JSVal Nat) (TemplateResult Nat) :=
  { items := some [some 1], scrollToIndex := some { index := 4 } }

/-- Concrete second configuration used by witnesses: it omits
`scrollToIndex` and carries a nonzero explicit `totalItems`. -/
def wCfg2 : ScrollConfig Nat (JSVal Nat) (TemplateResult Nat) :=
  { items := some [some 1, some 2], totalItems := some 9 }

/-- Concrete bound instance: the fresh instance after one successful
update with `wCfg1`. -/
def wBound : ScrollDirective Nat (JSVal Nat) (TemplateResult Nat) :=
  ((ScrollDirective.initialState Nat).update wPart wCfg1).1

/-- The engine state held by `wBound`, spelled out. -/
def wScroller : VirtualScroller Nat :=
  { container := { nodeType := 1 }, items := [some 1], totalItems := 1,
    layout := none, scrollTarget := some { nodeType := 1 },
    scrollToIndex := some { index := 4 } }

/-- Witness for C5 (amended): on the bound instance `wBound`, the nonzero
explicit `totalItems` of 9 in `wCfg2` wins over the two-element items
list. -/
theorem totalItems_push_rule_witness :
    ∃ s', (wBound.update wPart wCfg2).1.scroller = some s' ∧
      (∀ n : Int, wCfg2.totalItems = some n → n ≠ 0 →
        s'.totalItems = n) ∧
      (∀ l : List (JSVal Nat),
        (wCfg2.totalItems = none ∨ wCfg2.totalItems = some 0) →
        wCfg2.items = some l → s'.totalItems = (l.length : Int)) ∧
      ((wCfg2.totalItems = none ∨ wCfg2.totalItems = some 0) →
        wCfg2.items = none → s'.totalItems = 0) :=
  totalItems_push_rule wBound wScroller wPart wCfg2 rfl

/-- C6: on a bound update call, the engine `scrollToIndex` field is
written exactly when the configuration carries an explicit value: when
`scrollToIndex` is omitted, no write happens and the prior engine value is
preserved; when it is present, that single value is written. -/
theorem scrollToIndex_sticky_when_absent {α κ ρ : Type}
    (st : ScrollDirective α κ ρ) (s : VirtualScroller α) (part : ChildPart)
    (config : ScrollConfig α κ ρ) (hs : st.scroller = some s) :
    ∃ s', (st.update part config).1.scroller = some s' ∧
      (config.scrollToIndex = none →
        (st.update part config).2.2.scrollToIndexWrites = [] ∧
        s'.scrollToIndex = s.scrollToIndex) ∧
      (∀ v, config.scrollToIndex = some v →
        (st.update part config).2.2.scrollToIndexWrites = [v] ∧
        s'.scrollToIndex = some v) := by
  obtain ⟨h1, h2⟩ := update_bound_scroller_fields st s part config hs
  refine ⟨_, h1, ?_, ?_⟩
  · intro h
    rw [h] at h2
    exact ⟨h2, by simp [h]⟩
  · intro v hv
    rw [hv] at h2
    exact ⟨h2, by simp [hv]⟩

/-- Witness for C6: on the bound instance `wBound`, whose engine holds the
scroll request for index 4, the update with `wCfg2` (which omits
`scrollToIndex`) performs no write and preserves the request. -/
theorem scrollToIndex_sticky_when_absent_witness :
    ∃ s', (wBound.update wPart wCfg2).1.scroller = some s' ∧
      (wCfg2.scrollToIndex = none →
        (wBound.update wPart wCfg2).2.2.scrollToIndexWrites = [] ∧
        s'.scrollToIndex = wScroller.scrollToIndex) ∧
      (∀ v, wCfg2.scrollToIndex = some v →
        (wBound.update wPart wCfg2).2.2.scrollToIndexWrites = [v] ∧
        s'.scrollToIndex = some v) :=
  scrollToIndex_sticky_when_absent wBound wScroller wPart wCfg2 rfl

/-- Concrete instance state refuting the absolute-index reading of the
projection: stored range (1, 1), items `[10, 20]`, identity keys and a
render function that returns its index argument. -/
def cexRenderState : ScrollDirective Nat (JSVal Nat) Nat :=
  { container := none, scroller := none, first := 1, last := 1,
    renderItem := fun _ j => j, keyFunction := fun v => v,
    items := [some 10, some 20] }

/-- C1 counterexample: on `cexRenderState` the projection is `[(20, 0)]`;
the render function receives the window-relative index 0, not the absolute
index 1 the claim states, which would give `[(20, 1)]`. -/
theorem render_projection_absolute_index_cex :
    (cexRenderState.render none).2 = [((some 20 : JSVal Nat), 0)] ∧
    (cexRenderState.render none).2 ≠ [((some 20 : JSVal Nat), 1)] := by
  constructor <;> decide

/-- C1 (amended): when the stored range has `last < first` the projection
is the empty keyed sequence; when `0 ≤ first ≤ last` it has exactly
`last - first + 1` entries in ascending index order, and the entry at
window position `j` (logical index `first + j`) is keyed by
`keyFunction (items[first + j])` and rendered by
`renderItem (items[first + j]) j`: the index handed to the render function
is relative to the window start, not the absolute index. -/
theorem render_projection_window_spec {α κ ρ : Type}
    (st : ScrollDirective α κ ρ) :
    (st.last < st.first → (st.render none).2 = []) ∧
    (0 ≤ st.first → st.first ≤ st.last →
      ((st.render none).2.length = (st.last + 1 - st.first).toNat ∧
       ∀ j : Nat, j < (st.last + 1 - st.first).toNat →
         (st.render none).2[j]? =
           some (st.keyFunction (jsGet st.items (st.first.toNat + j)),
                 st.renderItem (jsGet st.items (st.first.toNat + j)) j))) := by
  constructor
  · intro h
    exact render_none_empty st (by omega)
  · intro hf hfl
    exact ⟨render_none_length_pos st hf hfl,
      fun j hj => render_none_getElem? st j hf hfl hj⟩

/-- Witness for C1 (amended): on `cexRenderState` the single entry of the
window (1, 1) carries the item at logical index 1 and the window-relative
index 0. -/
theorem render_projection_window_spec_witness :
    (cexRenderState.render none).2[0]? =
      some ((some 20 : JSVal Nat), (0 : Nat)) := by
  have h := (render_projection_window_spec cexRenderState).2
    (by decide) (by decide)
  exact (h.2 0 (by decide)).trans (by decide)

/-- C2: sliding the window from (f, l) to (f+1, l+1) over a valid range
`0 ≤ f ≤ l < items.length` preserves the key of every logical item present
in both windows: item `i` with `f + 1 ≤ i ≤ l` appears at position
`i - f` of the old sequence and at position `i - f - 1` of the new one,
keyed in both by `keyFunction (items[i])`. -/
theorem window_slide_key_stability {α κ ρ : Type}
    (st : ScrollDirective α κ ρ) (f l i : Int)
    (hf : 0 ≤ f) (hfl : f ≤ l) (hl : l < (st.items.length : Int))
    (hi1 : f + 1 ≤ i) (hi2 : i ≤ l) :
    ∃ r₁ r₂ : ρ,
      (({ st with first := f, last := l } :
          ScrollDirective α κ ρ).render none).2[(i - f).toNat]? =
        some (st.keyFunction (jsGet st.items i.toNat), r₁) ∧
      (({ st with first := f + 1, last := l + 1 } :
          ScrollDirective α κ ρ).render none).2[(i - (f + 1)).toNat]? =
        some (st.keyFunction (jsGet st.items i.toNat), r₂) := by
  have hj1 : (i - f).toNat < (l + 1 - f).toNat := by omega
  have h1 := render_none_getElem?
    ({ st with first := f, last := l }) (i - f).toNat hf hfl hj1
  have hj2 : (i - (f + 1)).toNat < (l + 1 + 1 - (f + 1)).toNat := by omega
  have h2 := render_none_getElem?
    ({ st with first := f + 1, last := l + 1 }) (i - (f + 1)).toNat
    (show (0 : Int) ≤ f + 1 by omega) (show f + 1 ≤ l + 1 by omega) hj2
  have e1 : f.toNat + (i - f).toNat = i.toNat := by omega
  have e2 : (f + 1).toNat + (i - (f + 1)).toNat = i.toNat := by omega
  refine ⟨st.renderItem (jsGet st.items i.toNat) (i - f).toNat,
    st.renderItem (jsGet st.items i.toNat) (i - (f + 1)).toNat, ?_, ?_⟩
  · dsimp only at h1
    rw [e1] at h1
    exact h1
  · dsimp only at h2
    rw [e2] at h2
    exact h2

/-- Witness for C2: items `[10, 20, 30]`, windows (0, 1) and (1, 2); the
shared logical item 1 keeps its key in both sequences. -/
theorem window_slide_key_stability_witness :
    ∃ r₁ r₂ : Nat,
      (({ cexRenderState with first := 0, last := 1 } :
          ScrollDirective Nat (JSVal Nat) Nat).render none).2[(1 : Int).toNat]? =
        some (cexRenderState.keyFunction
          (jsGet cexRenderState.items (1 : Int).toNat), r₁) ∧
      (({ cexRenderState with first := 0 + 1, last := 1 + 1 } :
          ScrollDirective Nat (JSVal Nat) Nat).render none).2[((1 : Int) - (0 + 1)).toNat]? =
        some (cexRenderState.keyFunction
          (jsGet cexRenderState.items (1 : Int).toNat), r₂) :=
  window_slide_key_stability cexRenderState 0 1 1
    (by decide) (by decide) (by decide) (by decide) (by decide)

/-- C7: the rangeChanged handler stores exactly the notified first and
last, and the keyed sequence it pushes through `setValue` is the fresh
projection of the new range over the stored items, with no new update call
involved. -/
theorem range_notification_updates_and_pushes {α κ ρ : Type}
    (st : ScrollDirective α κ ρ) (f l : Int) :
    (st.handleRangeChanged f l).1.first = f ∧
    (st.handleRangeChanged f l).1.last = l ∧
    (¬ (0 ≤ f ∧ f ≤ l) → (st.handleRangeChanged f l).2 = []) ∧
    (0 ≤ f → f ≤ l →
      ((st.handleRangeChanged f l).2.length = (l + 1 - f).toNat ∧
       ∀ j : Nat, j < (l + 1 - f).toNat →
         (st.handleRangeChanged f l).2[j]? =
           some (st.keyFunction (jsGet st.items (f.toNat + j)),
                 st.renderItem (jsGet st.items (f.toNat + j)) j))) := by
  refine ⟨?_, ?_, ?_, ?_⟩
  · rw [ScrollDirective.handleRangeChanged, render_none_fst]
  · rw [ScrollDirective.handleRangeChanged, render_none_fst]
  · intro h
    exact render_none_empty _ h
  · intro hf hfl
    refine ⟨?_, fun j hj => ?_⟩
    · simpa using
        render_none_length_pos ({ st with first := f, last := l }) hf hfl
    · simpa using
        render_none_getElem? ({ st with first := f, last := l }) j hf hfl hj

/-- Witness for C7: notifying (1, 1) on `cexRenderState` stores that range
and pushes the one-entry projection for logical index 1. -/
theorem range_notification_updates_and_pushes_witness :
    (cexRenderState.handleRangeChanged 1 1).1.first = 1 ∧
    (cexRenderState.handleRangeChanged 1 1).1.last = 1 ∧
    (cexRenderState.handleRangeChanged 1 1).2[0]? =
      some ((some 20 : JSVal Nat), (0 : Nat)) := by
  have h := range_notification_updates_and_pushes cexRenderState 1 1
  refine ⟨h.1, h.2.1, ?_⟩
  exact ((h.2.2.2 (by decide) (by decide)).2 0 (by decide)).trans (by decide)

/-- C10: the projection is total on out-of-bounds ranges: with
`0 ≤ first ≤ last` and the default identity key function, every window
index `i ≥ items.length` still yields an entry, whose item is the
out-of-bounds lookup result `undefined` (`none`), so the entry is keyed by
`undefined`; consequently all such entries share one and the same key. -/
theorem oob_projection_total_shared_key {α ρ : Type}
    (st : ScrollDirective α (JSVal α) ρ) (i : Int)
    (hk : st.keyFunction = defaultKeyFunction)
    (hf : 0 ≤ st.first) (hfl : st.first ≤ st.last)
    (hi1 : st.first ≤ i) (hi2 : i ≤ st.last)
    (hoob : (st.items.length : Int) ≤ i) :
    (st.render none).2[(i - st.first).toNat]? =
      some ((none : JSVal α), st.renderItem none (i - st.first).toNat) ∧
    (∀ j : Int, st.first ≤ j → j ≤ st.last →
      (st.items.length : Int) ≤ j →
      ((st.render none).2[(i - st.first).toNat]?).map Prod.fst =
        ((st.render none).2[(j - st.first).toNat]?).map Prod.fst) := by
  have key : ∀ k : Int, st.first ≤ k → k ≤ st.last →
      (st.items.length : Int) ≤ k →
      (st.render none).2[(k - st.first).toNat]? =
        some ((none : JSVal α), st.renderItem none (k - st.first).toNat) := by
    intro k h1 h2 h3
    have hj : (k - st.first).toNat < (st.last + 1 - st.first).toNat := by
      omega
    have h := render_none_getElem? st (k - st.first).toNat hf hfl hj
    have e : st.first.toNat + (k - st.first).toNat = k.toNat := by omega
    rw [e] at h
    have hg : jsGet st.items k.toNat = none := jsGet_oob (by omega)
    rw [hg, hk] at h
    simpa [defaultKeyFunction] using h
  refine ⟨key i hi1 hi2 hoob, fun j h1 h2 h3 => ?_⟩
  rw [key i hi1 hi2 hoob, key j h1 h2 h3]
  rfl

/-- Concrete out-of-bounds state for the C10 witness: one item but the
stored range reaches index 2. -/
def oobState : ScrollDirective Nat (JSVal Nat) Nat :=
  { container := none, scroller := none, first := 0, last := 2,
    renderItem := fun _ j => j, keyFunction := defaultKeyFunction,
    items := [some 10] }

/-- Witness for C10: in `oobState`, window index 1 is past the single item
and yields the entry keyed by `undefined`; indices 1 and 2 share that
key. -/
theorem oob_projection_total_shared_key_witness :
    (oobState.render none).2[((1 : Int) - oobState.first).toNat]? =
      some ((none : JSVal Nat),
        oobState.renderItem none ((1 : Int) - oobState.first).toNat) ∧
    (∀ j : Int, oobState.first ≤ j → j ≤ oobState.last →
      (oobState.items.length : Int) ≤ j →
      ((oobState.render none).2[((1 : Int) - oobState.first).toNat]?).map
          Prod.fst =
        ((oobState.render none).2[((j : Int) - oobState.first).toNat]?).map
          Prod.fst) :=
  oob_projection_total_shared_key oobState 1 rfl
    (by decide) (by decide) (by decide) (by decide) (by decide)

end LitScroll
